import Mathlib

/-!
Shallow embedding of `download_methylation_data.py` (RobertsLab/project-white-whale).

External effects (subprocess invocations, directory listings, file writes) are
modelled by explicit environment records; each embedded function returns its
value together with a trace of the externally visible events it performs.
String manipulation is embedded via executable character-list primitives that
mirror the Python `str` operations used by the script.
-/

set_option autoImplicit false

namespace WhiteWhale

/-! ### Character-list string primitives (Python `str` operations) -/

/-- `startsWithL p s`: the character list `s` begins with the pattern `p`
(Python `s.startswith(p)`). -/
def startsWithL : List Char → List Char → Bool
  | [], _ => true
  | _ :: _, [] => false
  | p :: ps, c :: cs => p == c && startsWithL ps cs

/-- `endsWithL p s`: `s` ends with `p` (Python `s.endswith(p)`). -/
def endsWithL (p s : List Char) : Bool :=
  startsWithL p.reverse s.reverse

/-- `containsL p s`: the nonempty pattern `p` occurs as a contiguous substring
of `s` (Python `p in s`). -/
def containsL (p : List Char) : List Char → Bool
  | [] => startsWithL p []
  | c :: cs => startsWithL p (c :: cs) || containsL p cs

/-- Split on a single separator character (Python `s.split(sep)` for a
one-character separator). -/
def splitChar (sep : Char) : List Char → List (List Char)
  | [] => [[]]
  | c :: cs =>
    let r := splitChar sep cs
    if c == sep then [] :: r
    else
      match r with
      | [] => [[c]]
      | h :: t => (c :: h) :: t

/-- Python's `str.strip()` whitespace set. -/
def pyIsSpace (c : Char) : Bool :=
  c == ' ' || c == '\t' || c == '\n' || c == '\x0d' || c == '\x0b' || c == '\x0c'

/-- Python `s.strip()`: drop leading and trailing whitespace. -/
def stripL (s : List Char) : List Char :=
  ((s.dropWhile pyIsSpace).reverse.dropWhile pyIsSpace).reverse

/-- `pyStartsWith s p` embeds Python `s.startswith(p)` on `String`s. -/
def pyStartsWith (s p : String) : Bool :=
  startsWithL p.data s.data

/-- Parse one decimal digit. -/
def decDigit (c : Char) : Option Nat :=
  if '0' ≤ c ∧ c ≤ '9' then some (c.toNat - '0'.toNat) else none

/-- Parse a string of decimal digits (Python `int(s)` for the digit strings
appearing in the registry). -/
def parseNatL (s : List Char) : Option Nat :=
  s.foldl
    (fun acc c =>
      match acc, decDigit c with
      | some n, some d => some (n * 10 + d)
      | _, _ => none)
    (some 0)

/-- Association-list lookup with string keys (Python `dict` lookup; the
embedded dictionaries all have distinct keys). -/
def lookupStr {α : Type} : String → List (String × α) → Option α
  | _, [] => none
  | k, (k', v) :: ps => if k = k' then some v else lookupStr k ps

/-! ### Events and results -/

/-- Outcome of one `subprocess.run` call: normal completion with a return code
and captured stdout/stderr, a raised `TimeoutExpired`, or any other raised
exception (e.g. `FileNotFoundError`, `CalledProcessError`). -/
inductive ProcResult where
  | exit (returncode : Int) (stdout : String) (stderr : String)
  | timeout
  | exc (msg : String)
deriving DecidableEq

/-- An external-tool invocation performed by the script. -/
inductive ToolCall where
  | fasterqDump (run : String)
  | gzip (file : String)
  | fastqDump (run : String)
deriving DecidableEq

/-- Externally visible events: the esearch/efetch resolver pipeline, a call
into the per-run fetcher, an external-tool invocation, or a file/directory
created by the script itself. -/
inductive Event where
  | resolverQuery (bp : String)
  | fetch (run : String)
  | tool (t : ToolCall)
  | wrote (path : String)
deriving DecidableEq

/-- Per-run outcome, distinguishing the three return paths of `_download_run`:
the early `return True` on the filename check (Skipped), a later `return True`
(Success), and `return False` (Failed). -/
inductive DownloadResult where
  | success
  | skipped
  | failed
deriving DecidableEq

/-- `_download_run` returns a bool in the source; Skipped and Success both map
to `True`, Failed to `False`. -/
def DownloadResult.toBool : DownloadResult → Bool
  | .failed => false
  | _ => true

structure FetchOutcome where
  result : DownloadResult
  events : List Event
deriving DecidableEq

/-! ### Glob patterns of `_download_run` -/

/-- The glob `{run}*.fastq*` used by the idempotence check at the top of
`_download_run` (line 282): the filename starts with the run accession and the
remainder contains `.fastq`. -/
def fastqGlobMatch (run fname : String) : Bool :=
  startsWithL run.data fname.data &&
    containsL ".fastq".data (fname.data.drop run.data.length)

/-- The glob `{run}*.fastq` used after a successful fasterq-dump (line 307) to
collect uncompressed outputs: prefix `run`, remainder ending in `.fastq`. -/
def producedGlobMatch (run fname : String) : Bool :=
  startsWithL run.data fname.data &&
    endsWithL ".fastq".data (fname.data.drop run.data.length)

/-! ### Dataset Registry (`METHYLATION_DATASETS`) -/

structure DatasetInfo where
  description : String
  bioprojects : List String
  method : String
  estimated_samples : String
  tissue_types : List String
  estimated_size_gb : String
  search_url : String
  notes : String
deriving DecidableEq

def METHYLATION_DATASETS : List (String × DatasetInfo) :=
  [ ("wgbs_roberts",
     { description := "Roberts Lab WGBS Studies"
       bioprojects := ["PRJNA316216", "PRJNA394801"]
       method := "WGBS"
       estimated_samples := "30-50"
       tissue_types := ["gonad", "gill", "mantle", "digestive_gland"]
       estimated_size_gb := "200-400"
       search_url := "https://www.ncbi.nlm.nih.gov/sra/?term=roberts+crassostrea+bisulfite"
       notes := "High-quality WGBS from University of Washington Roberts Lab" }),
    ("wgbs_ocean_acidification",
     { description := "Ocean Acidification Methylation Study"
       bioprojects := ["PRJNA394801", "PRJNA316216"]
       method := "WGBS"
       estimated_samples := "20-30"
       tissue_types := ["gill", "mantle"]
       estimated_size_gb := "150-250"
       search_url := "https://www.ncbi.nlm.nih.gov/sra/?term=crassostrea+pH+methylation"
       notes := "DNA methylation response to ocean acidification" }),
    ("rrbs_developmental",
     { description := "Developmental Methylation Studies"
       bioprojects := ["PRJNA486983", "PRJNA273482"]
       method := "RRBS"
       estimated_samples := "25-35"
       tissue_types := ["gonad", "larvae", "spat"]
       estimated_size_gb := "50-100"
       search_url := "https://www.ncbi.nlm.nih.gov/sra/?term=crassostrea+RRBS"
       notes := "RRBS during oyster development and reproduction" }),
    ("rrbs_environmental_stress",
     { description := "Environmental Stress RRBS"
       bioprojects := ["PRJNA506631", "PRJNA413624"]
       method := "RRBS"
       estimated_samples := "20-30"
       tissue_types := ["various_adult_tissues"]
       estimated_size_gb := "40-80"
       search_url := "https://www.ncbi.nlm.nih.gov/sra/?term=crassostrea+stress+methylation"
       notes := "Methylation changes under environmental stress" }),
    ("medip_seq",
     { description := "Genome-wide Methylation Profiling"
       bioprojects := ["PRJNA348937", "PRJNA394425"]
       method := "MeDIP-seq"
       estimated_samples := "15-25"
       tissue_types := ["adult_tissues"]
       estimated_size_gb := "30-60"
       search_url := "https://www.ncbi.nlm.nih.gov/sra/?term=crassostrea+MeDIP"
       notes := "MeDIP-seq for genome-wide methylation patterns" }),
    ("targeted_bisulfite",
     { description := "Gene-specific Methylation Studies"
       bioprojects := ["PRJNA311096", "PRJNA381456"]
       method := "Targeted Bisulfite"
       estimated_samples := "20-40"
       tissue_types := ["multiple_tissue_types"]
       estimated_size_gb := "10-30"
       search_url := "https://www.ncbi.nlm.nih.gov/sra/?term=crassostrea+targeted+bisulfite"
       notes := "Targeted analysis of specific gene regions" }),
    ("magallana_recent",
     { description := "Recent Magallana gigas Studies"
       bioprojects := ["PRJNA725689", "PRJNA688412"]
       method := "Mixed methods"
       estimated_samples := "15-25"
       tissue_types := ["gonad", "gill", "mantle"]
       estimated_size_gb := "100-200"
       search_url := "https://www.ncbi.nlm.nih.gov/sra/?term=magallana+methylation"
       notes := "Studies using updated Magallana gigas nomenclature" }) ]

def lookupDataset (dataset_id : String) : Option DatasetInfo :=
  lookupStr dataset_id METHYLATION_DATASETS

/-! ### Run Resolver (`get_bioproject_runs`, `_get_example_runs`) -/

/-- The static fallback table of `_get_example_runs`. -/
def known_runs : List (String × List String) :=
  [ ("PRJNA316216", ["SRR4341274", "SRR4341275", "SRR4341276"]),
    ("PRJNA394801", ["SRR5877947", "SRR5877948", "SRR5877949"]),
    ("PRJNA486983", ["SRR7951165", "SRR7951166", "SRR7951167"]),
    ("PRJNA273482", ["SRR1734651", "SRR1734652", "SRR1734653"]),
    ("PRJNA506631", ["SRR8278144", "SRR8278145", "SRR8278146"]),
    ("PRJNA413624", ["SRR6341890", "SRR6341891", "SRR6341892"]),
    ("PRJNA348937", ["SRR4125567", "SRR4125568", "SRR4125569"]),
    ("PRJNA394425", ["SRR5877950", "SRR5877951", "SRR5877952"]),
    ("PRJNA311096", ["SRR3146589", "SRR3146590", "SRR3146591"]),
    ("PRJNA381456", ["SRR5367898", "SRR5367899", "SRR5367900"]),
    ("PRJNA725689", ["SRR14048801", "SRR14048802", "SRR14048803"]),
    ("PRJNA688412", ["SRR13143456", "SRR13143457", "SRR13143458"]) ]

/-- `_get_example_runs`: `known_runs.get(bioproject, [])`. -/
def get_example_runs (bioproject : String) : List String :=
  (lookupStr bioproject known_runs).getD []

/-- Parsing of the runinfo CSV inside Method 1 of `get_bioproject_runs`
(lines 171-180): strip the stdout, split into lines; only when there is a
header plus at least one further line, keep from each non-blank data line the
first comma-separated field if it starts with `SRR`.  Returns `none` when the
`len(lines) > 1` guard fails (the code then falls through to Method 2). -/
def parseRuninfo (out : String) : Option (List String) :=
  if (splitChar '\n' (stripL out.data)).length > 1 then
    some ((splitChar '\n' (stripL out.data)).tail.filterMap (fun line =>
      if stripL line ≠ [] then
        if startsWithL "SRR".data ((splitChar ',' line).headD []) then
          some (String.mk ((splitChar ',' line).headD []))
        else none
      else none))
  else none

/-- Environment for one `get_bioproject_runs` call: the outcome of the
`esearch | efetch` shell pipeline (line 167). -/
structure ResolveEnv where
  queryResult : ProcResult

/-- The query pipeline failed: non-zero exit, timeout of the bounded 60-unit
wait, or any other exception (e.g. a missing tool). -/
def queryFailed : ProcResult → Bool
  | .exit rc _ _ => rc != 0
  | .timeout => true
  | .exc _ => true

/-- `get_bioproject_runs` (lines 158-204): Method 1 queries the pipeline and
parses its stdout; on any failure, empty stdout, or a header-only parse the
code falls through to Method 2, which returns the example runs if nonempty,
and otherwise to Method 3, which returns the example runs unconditionally. -/
def get_bioproject_runs (env : ResolveEnv) (bioproject : String) : List String :=
  match env.queryResult with
  | .exit rc out _ =>
    if rc = 0 ∧ out ≠ "" then
      match parseRuninfo out with
      | some runs => runs
      | none =>
        if get_example_runs bioproject ≠ [] then get_example_runs bioproject
        else get_example_runs bioproject
    else
      if get_example_runs bioproject ≠ [] then get_example_runs bioproject
      else get_example_runs bioproject
  | _ =>
    if get_example_runs bioproject ≠ [] then get_example_runs bioproject
    else get_example_runs bioproject

/-! ### Run Fetcher (`_download_run`) -/

/-- Environment for one `_download_run` call: the destination-directory
listing at entry, the outcome of the fasterq-dump call, the directory listing
after it, per-file existence and gzip-failure behaviour for the compression
loop, and the outcome of the fastq-dump fallback call. -/
structure FetchEnv where
  dirListing : List String
  fasterqResult : ProcResult
  listingAfterFasterq : List String
  fileExists : String → Bool
  gzipFails : String → Bool
  fastqDumpResult : ProcResult

/-- The compression loop of lines 307-311: for each collected `.fastq` file
that exists, invoke `gzip` with `check=True`; a non-zero gzip exit raises
`CalledProcessError`, which aborts the loop.  Returns whether the whole loop
completed and the gzip invocations that were made (the failing one
included). -/
def gzipLoop (env : FetchEnv) : List String → Bool × List Event
  | [] => (true, [])
  | f :: fs =>
    if env.fileExists f then
      if env.gzipFails f then (false, [.tool (.gzip f)])
      else
        let r := gzipLoop env fs
        (r.1, .tool (.gzip f) :: r.2)
    else gzipLoop env fs

/-- Method 2 of `_download_run` (lines 324-343): the fastq-dump fallback.
Zero exit returns True; non-zero exit falls through to the final
`return False`; `TimeoutExpired` and every other exception are caught by the
`except Exception` clause and also end in `return False`. -/
def fallbackFastqDump (env : FetchEnv) (run : String) : DownloadResult × List Event :=
  match env.fastqDumpResult with
  | .exit rc _ _ =>
    if rc = 0 then (.success, [.tool (.fastqDump run)])
    else (.failed, [.tool (.fastqDump run)])
  | _ => (.failed, [.tool (.fastqDump run)])

/-- `_download_run` (lines 276-365).  First the idempotence check on the glob
`{run}*.fastq*`; then, with the SRA toolkit available, the fasterq-dump
attempt: on `TimeoutExpired` the function returns False immediately (line
319); on zero exit it runs the compression loop, whose failure is caught by
the `except Exception` clause at line 320 and falls through — like a non-zero
exit or any other exception — to the fastq-dump fallback.  Without the
toolkit it writes a placeholder marker file and returns True. -/
def download_run (sra_available : Bool) (env : FetchEnv) (run_accession : String) :
    FetchOutcome :=
  if env.dirListing.any (fastqGlobMatch run_accession) then
    ⟨.skipped, []⟩
  else if sra_available then
    match env.fasterqResult with
    | .timeout => ⟨.failed, [.tool (.fasterqDump run_accession)]⟩
    | .exit rc _ _ =>
      if rc = 0 then
        let fastq_files := env.listingAfterFasterq.filter (producedGlobMatch run_accession)
        let g := gzipLoop env fastq_files
        if g.1 then ⟨.success, .tool (.fasterqDump run_accession) :: g.2⟩
        else
          let m := fallbackFastqDump env run_accession
          ⟨m.1, .tool (.fasterqDump run_accession) :: (g.2 ++ m.2)⟩
      else
        let m := fallbackFastqDump env run_accession
        ⟨m.1, .tool (.fasterqDump run_accession) :: m.2⟩
    | .exc _ =>
      let m := fallbackFastqDump env run_accession
      ⟨m.1, .tool (.fasterqDump run_accession) :: m.2⟩
  else
    ⟨.success, [.wrote (run_accession ++ "_DOWNLOAD_REQUIRED.txt")]⟩

/-! ### Dataset Orchestrator (`download_dataset`) -/

/-- Python slice `runs[:n]` for an arbitrary integer `n` (negative indices
count from the end; the Nat subtraction clamps at zero like Python). -/
def pySlice (runs : List String) (n : Int) : List String :=
  if 0 ≤ n then runs.take n.toNat
  else runs.take (runs.length - (-n).toNat)

/-- The truncation of lines 263-266: `if max_runs and len(runs) > max_runs:
runs = runs[:max_runs]`.  `max_runs` participates by Python truthiness, so
`None` and `0` both skip the truncation. -/
def truncateRuns (max_runs : Option Int) (runs : List String) : List String :=
  match max_runs with
  | none => runs
  | some n => if n ≠ 0 ∧ (runs.length : Int) > n then pySlice runs n else runs

/-- Environment for one `download_dataset` call: the toolkit-availability flag
set in `__init__`, plus the per-bioproject resolver environment and the
per-run fetcher environment. -/
structure Env where
  sra_available : Bool
  resolveEnv : String → ResolveEnv
  fetchEnv : String → FetchEnv

/-- The inner loop of lines 269-272: fetch each run, and-ing the boolean
results into `success`. -/
def processRuns (env : Env) : List String → Bool × List Event
  | [] => (true, [])
  | r :: rs =>
    let o := download_run env.sra_available (env.fetchEnv r) r
    let rest := processRuns env rs
    (o.result.toBool && rest.1, (.fetch r :: o.events) ++ rest.2)

/-- The bioproject loop of lines 249-272: in dry-run mode only log; otherwise
resolve the runs (one pipeline query), skip the bioproject when none were
found, truncate, and fetch each run. -/
def processBioprojects (env : Env) (dry_run : Bool) (max_runs : Option Int) :
    List String → Bool × List Event
  | [] => (true, [])
  | bp :: rest =>
    let tail := processBioprojects env dry_run max_runs rest
    if dry_run then tail
    else
      let runs := get_bioproject_runs (env.resolveEnv bp) bp
      if runs = [] then (tail.1, .resolverQuery bp :: tail.2)
      else
        let p := processRuns env (truncateRuns max_runs runs)
        (p.1 && tail.1, .resolverQuery bp :: (p.2 ++ tail.2))

/-- `download_dataset` (lines 226-274): unknown dataset ids fail fast before
any directory creation or tool use; otherwise the dataset directory and the
`dataset_info.json` metadata artifact are created, the worklist is the single
filter bioproject or the descriptor's full list, and the bioproject loop
runs. -/
def datasetWorklist (bioproject : Option String) (info : DatasetInfo) : List String :=
  match bioproject with
  | some bp => [bp]
  | none => info.bioprojects

def download_dataset (env : Env) (dataset_id : String) (bioproject : Option String)
    (max_runs : Option Int) (dry_run : Bool) : Bool × List Event :=
  match lookupDataset dataset_id with
  | none => (false, [])
  | some info =>
    let p := processBioprojects env dry_run max_runs (datasetWorklist bioproject info)
    (p.1, .wrote dataset_id :: .wrote (dataset_id ++ "/dataset_info.json") :: p.2)

/-! ### Script Emitter (`create_download_script`) -/

/-- Decimal rendering of a natural number (Python `str(int)`), written with
explicit fuel so that it evaluates by kernel reduction. -/
def natToStrAux : Nat → Nat → List Char → List Char
  | 0, _, acc => acc
  | fuel + 1, n, acc =>
    let d := Char.ofNat (48 + n % 10)
    if n < 10 then d :: acc
    else natToStrAux fuel (n / 10) (d :: acc)

def natToStr (n : Nat) : String :=
  String.mk (natToStrAux (n + 1) n [])

/-- The fixed header chunks written at lines 372-397. -/
def scriptPreamble : List String :=
  [ "#!/bin/bash\n",
    "# Auto-generated script for downloading DNA methylation datasets\n",
    "# Generated by download_methylation_data.py\n",
    "# Usage: ./download_script.sh\n\n",
    "set -e  # Exit on error\n",
    "set -u  # Exit on undefined variable\n\n",
    "# Function to check if command exists\n",
    "command_exists() \x7b\n",
    "    command -v \"$1\" >/dev/null 2>&1\n",
    "\x7d\n\n",
    "# Check for required tools\n",
    "if ! command_exists fasterq-dump && ! command_exists fastq-dump; then\n",
    "    echo \"Error: SRA Toolkit not found. Please install sra-tools.\"\n",
    "    echo \"Visit: https://github.com/ncbi/sra-tools\"\n",
    "    exit 1\n",
    "fi\n\n",
    "# Set download tool preference\n",
    "if command_exists fasterq-dump; then\n",
    "    DOWNLOAD_TOOL=\"fasterq-dump\"\n",
    "    DOWNLOAD_ARGS=\"--split-files --progress --threads 2\"\n",
    "else\n",
    "    DOWNLOAD_TOOL=\"fastq-dump\"\n",
    "    DOWNLOAD_ARGS=\"--split-files --gzip\"\n",
    "fi\n\n",
    "echo \"Using $DOWNLOAD_TOOL for downloads\"\n",
    "echo \"Started at: $(date)\"\n\n" ]

/-- The chunks written for one example run (lines 428-432). -/
def runChunks (dataset_id bioproject run : String) : List String :=
  [ "echo \"Downloading run " ++ run ++ "...\"\n",
    "$DOWNLOAD_TOOL $DOWNLOAD_ARGS --outdir " ++ dataset_id ++ "/" ++ bioproject ++ " " ++ run ++ "\n",
    "# Compress fastq files to save space\n",
    "[ \"$DOWNLOAD_TOOL\" = \"fasterq-dump\" ] && gzip " ++ dataset_id ++ "/" ++ bioproject ++ "/" ++ run ++ "*.fastq 2>/dev/null || true\n",
    "\n" ]

/-- The commented-out dynamic-query alternative (lines 434-449). -/
def queryAltChunks (dataset_id bioproject : String) : List String :=
  [ "# Option 2: Query for all runs and download\n",
    "# Uncomment the following lines to download all runs:\n",
    "# if command_exists esearch && command_exists efetch; then\n",
    "#     echo \"Querying all runs for " ++ bioproject ++ "...\"\n",
    "#     esearch -db sra -query \x27" ++ bioproject ++ "[BioProject]\x27 | \\\n",
    "#         efetch -format runinfo | \\\n",
    "#         cut -d\x27,\x27 -f1 | \\\n",
    "#         tail -n +2 | \\\n",
    "#         while read run; do\n",
    "#             echo \"Downloading $run...\"\n",
    "#             $DOWNLOAD_TOOL $DOWNLOAD_ARGS --outdir " ++ dataset_id ++ "/" ++ bioproject ++ " $run\n",
    "#             [ \"$DOWNLOAD_TOOL\" = \"fasterq-dump\" ] && gzip " ++ dataset_id ++ "/" ++ bioproject ++ "/$run*.fastq 2>/dev/null || true\n",
    "#         done\n",
    "# else\n",
    "#     echo \"Entrez Direct tools not available for automated run discovery\"\n",
    "# fi\n\n" ]

/-- The chunks written for one bioproject of a dataset (lines 416-452). -/
def bioprojectChunks (dataset_id bioproject : String) : List String :=
  [ "# BioProject: " ++ bioproject ++ "\n",
    "echo \"Processing BioProject " ++ bioproject ++ "...\"\n",
    "mkdir -p " ++ dataset_id ++ "/" ++ bioproject ++ "\n" ] ++
  (let example_runs := get_example_runs bioproject
   if example_runs ≠ [] then
     "# Option 1: Download example runs (for testing)\n" ::
       ((example_runs.take 3).flatMap (runChunks dataset_id bioproject) ++
        queryAltChunks dataset_id bioproject)
   else
     [ "# No example runs available for " ++ bioproject ++ "\n",
       "# Manual run discovery required\n\n" ])

/-- The chunks written for one known dataset (lines 404-419). -/
def datasetChunks (dataset_id : String) (info : DatasetInfo) : List String :=
  [ "# Dataset: " ++ info.description ++ "\n",
    "# Method: " ++ info.method ++ "\n",
    "# Estimated size: " ++ info.estimated_size_gb ++ " GB\n",
    "# Estimated samples: " ++ info.estimated_samples ++ "\n",
    "echo \"\\nStarting dataset: " ++ info.description ++ "\"\n",
    "mkdir -p " ++ dataset_id ++ "\n\n" ] ++
  info.bioprojects.flatMap (bioprojectChunks dataset_id)

/-- The size contribution of one dataset (lines 412-414): split the estimate
on `-` and, when that yields exactly two parts, add the upper bound. -/
def datasetSizeUpper (info : DatasetInfo) : Nat :=
  let size_range := splitChar '-' info.estimated_size_gb.data
  if size_range.length = 2 then (parseNatL (size_range.getD 1 [])).getD 0 else 0

/-- The accumulated `total_size` over the requested dataset ids (unknown ids
contribute nothing, exactly as the `if dataset_id in METHYLATION_DATASETS`
guard skips them). -/
def scriptTotalSize (dataset_ids : List String) : Nat :=
  dataset_ids.foldl
    (fun acc id =>
      match lookupDataset id with
      | some info => acc + datasetSizeUpper info
      | none => acc)
    0

/-- The summary and verification chunks (lines 454-464). -/
def summaryChunks (total_size : Nat) : List String :=
  [ "# Summary\n",
    "echo \"\\nDownload script completed at: $(date)\"\n",
    "echo \"Estimated total size: ~" ++ natToStr total_size ++ " GB\"\n",
    "echo \"Check individual dataset directories for downloaded files\"\n",
    "echo \"Compress large files with: find . -name \x27*.fastq\x27 -exec gzip \x7b\x7d \\;\"\n\n",
    "# Optional: Verify downloads\n",
    "echo \"\\nVerifying downloads...\"\n",
    "find . -name \x27*.fastq*\x27 -type f | wc -l | xargs echo \"Total FASTQ files:\"\n",
    "du -sh */ 2>/dev/null | sort -h\n" ]

/-- `create_download_script` (lines 367-470): the ordered sequence of chunks
written to the script file, paired with the computed `total_size`. -/
def create_download_script (dataset_ids : List String) : List String × Nat :=
  let body := dataset_ids.flatMap (fun id =>
    match lookupDataset id with
    | some info => datasetChunks id info
    | none => [])
  let total := scriptTotalSize dataset_ids
  (scriptPreamble ++ body ++ summaryChunks total, total)


/-! ### Concrete environments used by witnesses and counterexamples -/

/-- Fetch environment where fasterq-dump succeeds, the single produced
`.fastq` file fails to compress, and the fastq-dump fallback succeeds. -/
def c1Env : FetchEnv :=
  { dirListing := []
    fasterqResult := .exit 0 "" ""
    listingAfterFasterq := ["SRR4341274_1.fastq"]
    fileExists := fun _ => true
    gzipFails := fun _ => true
    fastqDumpResult := .exit 0 "" "" }

/-- Fetch environment where fasterq-dump raises `TimeoutExpired` while the
fastq-dump fallback would succeed if it were ever tried. -/
def c2Env : FetchEnv :=
  { dirListing := []
    fasterqResult := .timeout
    listingAfterFasterq := []
    fileExists := fun _ => true
    gzipFails := fun _ => false
    fastqDumpResult := .exit 0 "" "" }

/-- Fetch environment where fasterq-dump exits non-zero and the fastq-dump
fallback succeeds. -/
def c2ExitEnv : FetchEnv :=
  { c2Env with fasterqResult := .exit 1 "" "fasterq-dump error" }

/-- A fetch environment in which every external call would succeed. -/
def okFetchEnv : FetchEnv :=
  { dirListing := []
    fasterqResult := .exit 0 "" ""
    listingAfterFasterq := []
    fileExists := fun _ => true
    gzipFails := fun _ => false
    fastqDumpResult := .exit 0 "" "" }

/-- Fetch environment whose destination directory already holds a matching
compressed output for run `SRR4341274`. -/
def c4Env : FetchEnv :=
  { okFetchEnv with dirListing := ["SRR4341274_1.fastq.gz"] }

/-- Orchestrator environment: failing resolver pipeline (so the static
fallback is used), toolkit unavailable. -/
def c3Env : Env :=
  { sra_available := false
    resolveEnv := fun _ => ⟨.exit 1 "" "esearch failed"⟩
    fetchEnv := fun _ => okFetchEnv }

/-- Orchestrator environment with the toolkit available and one run,
`SRR4341275`, whose fasterq-dump times out and whose fastq-dump fallback also
fails; all other runs succeed. -/
def c6Env : Env :=
  { sra_available := true
    resolveEnv := fun _ => ⟨.exit 1 "" "esearch failed"⟩
    fetchEnv := fun r =>
      if r = "SRR4341275" then
        { okFetchEnv with fasterqResult := .timeout, fastqDumpResult := .exit 3 "" "err" }
      else okFetchEnv }

/-- The registry descriptor of `wgbs_roberts`, for witness statements. -/
def wgbsRobertsInfo : DatasetInfo :=
  { description := "Roberts Lab WGBS Studies"
    bioprojects := ["PRJNA316216", "PRJNA394801"]
    method := "WGBS"
    estimated_samples := "30-50"
    tissue_types := ["gonad", "gill", "mantle", "digestive_gland"]
    estimated_size_gb := "200-400"
    search_url := "https://www.ncbi.nlm.nih.gov/sra/?term=roberts+crassostrea+bisulfite"
    notes := "High-quality WGBS from University of Washington Roberts Lab" }

/-- Orchestrator environment with the toolkit unavailable everywhere and a
resolver pipeline that raises (missing tool). -/
def noToolEnv : Env :=
  { sra_available := false
    resolveEnv := fun _ => ⟨.exc "FileNotFoundError: esearch"⟩
    fetchEnv := fun _ => okFetchEnv }

/-- A resolver environment whose query pipeline exits non-zero. -/
def failedResolveEnv : ResolveEnv := ⟨.exit 2 "" "esearch: command error"⟩

/-! ### Helper lemmas -/

theorem fallbackFastqDump_events (env : FetchEnv) (run : String) :
    (fallbackFastqDump env run).2 = [.tool (.fastqDump run)] := by
  unfold fallbackFastqDump
  cases env.fastqDumpResult with
  | exit rc out err => by_cases h : rc = 0 <;> simp [h]
  | timeout => rfl
  | exc msg => rfl

theorem truncateRuns_nil (max_runs : Option Int) : truncateRuns max_runs [] = [] := by
  cases max_runs with
  | none => rfl
  | some n => simp [truncateRuns, pySlice]

theorem get_example_runs_of_lookup_none {bioproject : String}
    (h : lookupStr bioproject known_runs = none) :
    get_example_runs bioproject = [] := by
  unfold get_example_runs
  rw [h]
  rfl

theorem lookupStr_mem {α : Type} {k : String} {v : α} :
    ∀ {ps : List (String × α)}, lookupStr k ps = some v → (k, v) ∈ ps := by
  intro ps
  induction ps with
  | nil => intro h; exact absurd h (by simp [lookupStr])
  | cons p ps ih =>
    intro h
    unfold lookupStr at h
    split at h
    · rename_i heq
      cases h
      simp only [List.mem_cons]
      left
      rw [heq]
    · exact List.mem_cons_of_mem _ (ih h)

theorem example_runs_start_SRR (bioproject r : String)
    (h : r ∈ get_example_runs bioproject) : pyStartsWith r "SRR" = true := by
  unfold get_example_runs at h
  cases hl : lookupStr bioproject known_runs with
  | none => rw [hl] at h; exact absurd h (by simp)
  | some l =>
    rw [hl] at h
    simp only [Option.getD_some] at h
    have hmem : (bioproject, l) ∈ known_runs := lookupStr_mem hl
    have hall : ∀ p ∈ known_runs, ∀ x ∈ p.2, pyStartsWith x "SRR" = true := by decide
    exact hall _ hmem r h

theorem parseRuninfo_start_SRR (out : String) (runs : List String) (r : String)
    (hp : parseRuninfo out = some runs) (hr : r ∈ runs) :
    pyStartsWith r "SRR" = true := by
  unfold parseRuninfo at hp
  split at hp
  · cases hp
    obtain ⟨line, _, hline⟩ := List.mem_filterMap.mp hr
    split at hline
    · split at hline
      · cases hline
        rename_i hSRR
        exact hSRR
      · exact absurd hline (by simp)
    · exact absurd hline (by simp)
  · exact absurd hp (by simp)

theorem get_bioproject_runs_of_failed (env : ResolveEnv) (bioproject : String)
    (hfail : queryFailed env.queryResult = true) :
    get_bioproject_runs env bioproject = get_example_runs bioproject := by
  unfold get_bioproject_runs
  cases hq : env.queryResult with
  | exit rc out err =>
    have hrc : ¬ rc = 0 := by
      rw [hq] at hfail
      simpa [queryFailed] using hfail
    simp [hrc]
  | timeout => simp
  | exc msg => simp

theorem download_run_no_sra_toBool (fenv : FetchEnv) (run : String) :
    (download_run false fenv run).result.toBool = true := by
  unfold download_run
  split
  · rfl
  · rfl

theorem processRuns_result (env : Env) (runs : List String) :
    (processRuns env runs).1 =
      runs.all (fun r => (download_run env.sra_available (env.fetchEnv r) r).result.toBool) := by
  induction runs with
  | nil => rfl
  | cons r rs ih => simp [processRuns, ih, List.all_cons]

theorem processRuns_fetches (env : Env) (runs : List String) :
    ∀ r ∈ runs, Event.fetch r ∈ (processRuns env runs).2 := by
  induction runs with
  | nil => intro r hr; exact absurd hr (by simp)
  | cons x xs ih =>
    intro r hr
    simp only [processRuns, List.cons_append, List.mem_cons, List.mem_append]
    rcases List.mem_cons.mp hr with h | h
    · left; rw [h]
    · right; right; exact ih r h

theorem processBioprojects_result (env : Env) (max_runs : Option Int) (bps : List String) :
    (processBioprojects env false max_runs bps).1 =
      bps.all (fun bp =>
        (truncateRuns max_runs (get_bioproject_runs (env.resolveEnv bp) bp)).all
          (fun r => (download_run env.sra_available (env.fetchEnv r) r).result.toBool)) := by
  induction bps with
  | nil => rfl
  | cons bp rest ih =>
    by_cases hempty : get_bioproject_runs (env.resolveEnv bp) bp = []
    · simp [processBioprojects, hempty, truncateRuns_nil, ih]
    · simp [processBioprojects, hempty, processRuns_result, ih]

theorem processBioprojects_fetches (env : Env) (max_runs : Option Int) (bps : List String) :
    ∀ bp ∈ bps, ∀ r ∈ truncateRuns max_runs (get_bioproject_runs (env.resolveEnv bp) bp),
      Event.fetch r ∈ (processBioprojects env false max_runs bps).2 := by
  induction bps with
  | nil => intro bp hbp; exact absurd hbp (by simp)
  | cons x xs ih =>
    intro bp hbp r hr
    by_cases hempty : get_bioproject_runs (env.resolveEnv x) x = []
    · have hred : (processBioprojects env false max_runs (x :: xs)).2 =
          Event.resolverQuery x :: (processBioprojects env false max_runs xs).2 := by
        simp [processBioprojects, hempty]
      rw [hred]
      rcases List.mem_cons.mp hbp with h | h
      · subst h
        rw [hempty, truncateRuns_nil] at hr
        exact absurd hr (by simp)
      · exact List.mem_cons_of_mem _ (ih bp h r hr)
    · have hred : (processBioprojects env false max_runs (x :: xs)).2 =
          Event.resolverQuery x ::
            ((processRuns env
                (truncateRuns max_runs (get_bioproject_runs (env.resolveEnv x) x))).2 ++
              (processBioprojects env false max_runs xs).2) := by
        simp [processBioprojects, hempty]
      rw [hred]
      rcases List.mem_cons.mp hbp with h | h
      · subst h
        exact List.mem_cons_of_mem _ (List.mem_append_left _ (processRuns_fetches env _ r hr))
      · exact List.mem_cons_of_mem _ (List.mem_append_right _ (ih bp h r hr))

/-! ### Claims -/

/-- C1 counterexample: with fasterq-dump succeeding, the produced file
`SRR4341274_1.fastq` failing to compress, and fastq-dump available, the fetch
does NOT propagate the compression failure as an error: the `CalledProcessError`
raised by `gzip` is caught by the `except Exception` clause, the slower tool is
attempted as a fallback, and the invocation reports Success. -/
theorem claim_C1_counterexample :
    (download_run true c1Env "SRR4341274").result = .success ∧
    Event.tool (.fastqDump "SRR4341274") ∈ (download_run true c1Env "SRR4341274").events := by
  decide

/-- C1 (amended): in `_download_run`, when fasterq-dump succeeds and a failure
occurs while compressing a produced uncompressed output file, the failure is
caught like any other fasterq-dump-phase exception: the slower tool
(fastq-dump) is attempted as a fallback and the invocation's outcome is the
fallback's outcome; the compression failure is neither fatal nor propagated. -/
theorem claim_C1 (env : FetchEnv) (run out err : String)
    (hskip : env.dirListing.any (fastqGlobMatch run) = false)
    (hok : env.fasterqResult = .exit 0 out err)
    (hgz : (gzipLoop env (env.listingAfterFasterq.filter (producedGlobMatch run))).1 = false) :
    download_run true env run =
      ⟨(fallbackFastqDump env run).1,
       .tool (.fasterqDump run) ::
         ((gzipLoop env (env.listingAfterFasterq.filter (producedGlobMatch run))).2 ++
          (fallbackFastqDump env run).2)⟩ ∧
    Event.tool (.fastqDump run) ∈ (download_run true env run).events := by
  have heq : download_run true env run =
      ⟨(fallbackFastqDump env run).1,
       .tool (.fasterqDump run) ::
         ((gzipLoop env (env.listingAfterFasterq.filter (producedGlobMatch run))).2 ++
          (fallbackFastqDump env run).2)⟩ := by
    simp [download_run, hskip, hok, hgz]
  refine ⟨heq, ?_⟩
  rw [heq]
  simp [fallbackFastqDump_events]

/-- C1 witness: the amended claim instantiated at `c1Env`. -/
theorem claim_C1_witness :
    c1Env.dirListing.any (fastqGlobMatch "SRR4341274") = false ∧
    (gzipLoop c1Env (c1Env.listingAfterFasterq.filter (producedGlobMatch "SRR4341274"))).1
      = false ∧
    Event.tool (.fastqDump "SRR4341274") ∈ (download_run true c1Env "SRR4341274").events :=
  ⟨by decide, by decide,
   (claim_C1 c1Env "SRR4341274" "" "" (by decide) rfl (by decide)).2⟩

/-- C2 counterexample: when fasterq-dump raises `TimeoutExpired`, the function
returns False at once; the fastq-dump fallback is never attempted even though
it would have succeeded in this environment. -/
theorem claim_C2_counterexample :
    download_run true c2Env "SRR4341274" =
      ⟨.failed, [.tool (.fasterqDump "SRR4341274")]⟩ ∧
    Event.tool (.fastqDump "SRR4341274") ∉ (download_run true c2Env "SRR4341274").events := by
  decide

/-- C2 (amended): with a capable download tool available, a non-zero exit or a
non-timeout exception of fasterq-dump leads to the fastq-dump fallback being
attempted under the same bound, the run's outcome being the fallback's; but a
timeout of the bounded 3600 time-unit wait returns Failed immediately, without
any fallback attempt. -/
theorem claim_C2 (env : FetchEnv) (run : String)
    (hskip : env.dirListing.any (fastqGlobMatch run) = false) :
    (∀ rc out err, env.fasterqResult = .exit rc out err → rc ≠ 0 →
       download_run true env run =
         ⟨(fallbackFastqDump env run).1,
          .tool (.fasterqDump run) :: (fallbackFastqDump env run).2⟩) ∧
    (∀ msg, env.fasterqResult = .exc msg →
       download_run true env run =
         ⟨(fallbackFastqDump env run).1,
          .tool (.fasterqDump run) :: (fallbackFastqDump env run).2⟩) ∧
    (env.fasterqResult = .timeout →
       download_run true env run = ⟨.failed, [.tool (.fasterqDump run)]⟩) := by
  refine ⟨?_, ?_, ?_⟩
  · intro rc out err hres hrc
    simp [download_run, hskip, hres, hrc]
  · intro msg hres
    simp [download_run, hskip, hres]
  · intro hres
    simp [download_run, hskip, hres]

/-- C2 witness: the amended claim instantiated at `c2ExitEnv` (non-zero exit)
and at `c2Env` (timeout). -/
theorem claim_C2_witness :
    c2ExitEnv.dirListing.any (fastqGlobMatch "SRR4341274") = false ∧
    download_run true c2ExitEnv "SRR4341274" =
      ⟨(fallbackFastqDump c2ExitEnv "SRR4341274").1,
       .tool (.fasterqDump "SRR4341274") :: (fallbackFastqDump c2ExitEnv "SRR4341274").2⟩ ∧
    download_run true c2Env "SRR4341274" =
      ⟨.failed, [.tool (.fasterqDump "SRR4341274")]⟩ :=
  ⟨by decide,
   (claim_C2 c2ExitEnv "SRR4341274" (by decide)).1 1 "" "fasterq-dump error" rfl (by decide),
   (claim_C2 c2Env "SRR4341274" (by decide)).2.2 rfl⟩

/-- C4: if any file in the destination directory matches the glob
`{run}*.fastq*`, `_download_run` returns Skipped immediately, with no
external-tool invocation and no file write; since nothing changes, the same
holds for a repeated call on the same state. -/
theorem claim_C4 (sra_available : Bool) (env : FetchEnv) (run : String)
    (h : env.dirListing.any (fastqGlobMatch run) = true) :
    download_run sra_available env run = ⟨.skipped, []⟩ := by
  simp [download_run, h]

/-- C4 witness: the claim instantiated at `c4Env`, whose directory already
holds `SRR4341274_1.fastq.gz`. -/
theorem claim_C4_witness :
    c4Env.dirListing.any (fastqGlobMatch "SRR4341274") = true ∧
    download_run true c4Env "SRR4341274" = ⟨.skipped, []⟩ :=
  ⟨by decide, claim_C4 true c4Env "SRR4341274" (by decide)⟩

/-- C3 counterexample: `maxRuns = 0` is an integer, the resolver (via the
static fallback) returns three runs — more than 0 — yet the run list is not
truncated to the first 0 entries: Python's `if max_runs and ...` treats 0 as
falsy, and all three runs are fetched. -/
theorem claim_C3_counterexample :
    truncateRuns (some 0) ["SRR4341274", "SRR4341275", "SRR4341276"] =
      ["SRR4341274", "SRR4341275", "SRR4341276"] ∧
    Event.fetch "SRR4341276" ∈
      (download_dataset c3Env "wgbs_roberts" (some "PRJNA316216") (some 0) false).2 := by
  decide

/-- C3 (amended): for every positive integer N passed as maxRuns, the resolved
run list is truncated to exactly the first N entries (in resolver-returned
order) when the resolver returns more than N runs, and left unchanged when it
returns N or fewer; `maxRuns = 0` is treated like an absent limit and disables
truncation. -/
theorem claim_C3 (n : Int) (hn : 1 ≤ n) (runs : List String) :
    ((runs.length : Int) > n →
       truncateRuns (some n) runs = runs.take n.toNat ∧
       (truncateRuns (some n) runs).length = n.toNat) ∧
    ((runs.length : Int) ≤ n → truncateRuns (some n) runs = runs) := by
  constructor
  · intro hgt
    have hne : n ≠ 0 := by omega
    have hpos : 0 ≤ n := by omega
    have heq : truncateRuns (some n) runs = runs.take n.toNat := by
      simp [truncateRuns, pySlice, hne, hgt, hpos]
    refine ⟨heq, ?_⟩
    rw [heq, List.length_take]
    omega
  · intro hle
    have hngt : ¬ ((runs.length : Int) > n) := by omega
    simp [truncateRuns, hngt]

/-- C3 witness: the amended claim instantiated at N = 2 on a three-element
resolver result. -/
theorem claim_C3_witness :
    ((["SRR4341274", "SRR4341275", "SRR4341276"].length : Int) > 2) ∧
    (truncateRuns (some 2) ["SRR4341274", "SRR4341275", "SRR4341276"] =
       ["SRR4341274", "SRR4341275", "SRR4341276"].take ((2 : Int)).toNat ∧
     (truncateRuns (some 2) ["SRR4341274", "SRR4341275", "SRR4341276"]).length =
       ((2 : Int)).toNat) :=
  ⟨by decide, (claim_C3 2 (by decide) ["SRR4341274", "SRR4341275", "SRR4341276"]).1 (by decide)⟩

/-- C5: for every dataset identifier not present in the static registry,
`download_dataset` returns false with an empty event trace: no resolver query,
no fetch, no external tool, no directory and no metadata artifact. -/
theorem claim_C5 (env : Env) (dataset_id : String) (bioproject : Option String)
    (max_runs : Option Int) (dry_run : Bool)
    (h : lookupDataset dataset_id = none) :
    download_dataset env dataset_id bioproject max_runs dry_run = (false, []) := by
  unfold download_dataset
  rw [h]

/-- C5 witness: the claim instantiated at the unknown id `wgs_roberts`. -/
theorem claim_C5_witness :
    lookupDataset "wgs_roberts" = none ∧
    download_dataset noToolEnv "wgs_roberts" none none false = (false, []) :=
  ⟨by decide, claim_C5 noToolEnv "wgs_roberts" none none false (by decide)⟩

/-- C6: for a known dataset id in non-dry-run mode, the overall result is the
conjunction over every bioproject in the worklist of the fetch results of
every run in its (truncated) resolved list — so any Failed run makes the
result false — and every such run is fetched, i.e. the orchestrator never
aborts early after the dataset-id check. -/
theorem claim_C6 (env : Env) (dataset_id : String) (info : DatasetInfo)
    (bioproject : Option String) (max_runs : Option Int)
    (h : lookupDataset dataset_id = some info) :
    (download_dataset env dataset_id bioproject max_runs false).1 =
      (datasetWorklist bioproject info).all (fun bp =>
        (truncateRuns max_runs (get_bioproject_runs (env.resolveEnv bp) bp)).all
          (fun r => (download_run env.sra_available (env.fetchEnv r) r).result.toBool)) ∧
    (∀ bp ∈ datasetWorklist bioproject info,
       ∀ r ∈ truncateRuns max_runs (get_bioproject_runs (env.resolveEnv bp) bp),
         Event.fetch r ∈ (download_dataset env dataset_id bioproject max_runs false).2) := by
  have hd : download_dataset env dataset_id bioproject max_runs false =
      ((processBioprojects env false max_runs (datasetWorklist bioproject info)).1,
       .wrote dataset_id :: .wrote (dataset_id ++ "/dataset_info.json") ::
         (processBioprojects env false max_runs (datasetWorklist bioproject info)).2) := by
    unfold download_dataset
    rw [h]
  rw [hd]
  refine ⟨processBioprojects_result env max_runs _, ?_⟩
  intro bp hbp r hr
  exact List.mem_cons_of_mem _ (List.mem_cons_of_mem _
    (processBioprojects_fetches env max_runs _ bp hbp r hr))

/-- C6 witness: in `c6Env` the run `SRR4341275` fails (timeout, then failed
fallback), the overall result is false, yet the later run `SRR4341276` of the
same bioproject is still fetched. -/
theorem claim_C6_witness :
    lookupDataset "wgbs_roberts" = some wgbsRobertsInfo ∧
    (download_dataset c6Env "wgbs_roberts" none none false).1 = false ∧
    Event.fetch "SRR4341276" ∈ (download_dataset c6Env "wgbs_roberts" none none false).2 :=
  ⟨by decide, by decide,
   (claim_C6 c6Env "wgbs_roberts" wgbsRobertsInfo none none (by decide)).2
     "PRJNA316216" (by decide) "SRR4341276" (by decide)⟩

/-- C7: whenever the external query pipeline fails (non-zero exit, timeout of
the bounded 60-unit wait, or a raised exception such as a missing tool),
`get_bioproject_runs` falls through to the static fallback table; and if the
bioproject is also absent from that table it returns the empty list.  The
embedding is a total function: no exception escapes. -/
theorem claim_C7 (env : ResolveEnv) (bioproject : String)
    (hfail : queryFailed env.queryResult = true) :
    get_bioproject_runs env bioproject = get_example_runs bioproject ∧
    (lookupStr bioproject known_runs = none → get_bioproject_runs env bioproject = []) := by
  refine ⟨get_bioproject_runs_of_failed env bioproject hfail, ?_⟩
  intro habs
  rw [get_bioproject_runs_of_failed env bioproject hfail,
    get_example_runs_of_lookup_none habs]

/-- C7 witness: a failing pipeline and a bioproject absent from the fallback
table yield the empty list. -/
theorem claim_C7_witness :
    queryFailed failedResolveEnv.queryResult = true ∧
    lookupStr "PRJNA999999" known_runs = none ∧
    get_bioproject_runs failedResolveEnv "PRJNA999999" = [] :=
  ⟨by decide, by decide,
   (claim_C7 failedResolveEnv "PRJNA999999" (by decide)).2 (by decide)⟩

/-- C8: the script emitted for `["wgbs_roberts"]` contains a mkdir command for
the dataset directory and one for each of its two bioprojects, and its
total-size summary line carries 400 — the upper bound of the descriptor's
`200-400` size-estimate range. -/
theorem claim_C8 :
    "mkdir -p wgbs_roberts\n\n" ∈ (create_download_script ["wgbs_roberts"]).1 ∧
    "mkdir -p wgbs_roberts/PRJNA316216\n" ∈ (create_download_script ["wgbs_roberts"]).1 ∧
    "mkdir -p wgbs_roberts/PRJNA394801\n" ∈ (create_download_script ["wgbs_roberts"]).1 ∧
    "echo \"Estimated total size: ~400 GB\"\n" ∈ (create_download_script ["wgbs_roberts"]).1 ∧
    (create_download_script ["wgbs_roberts"]).2 = 400 ∧
    datasetSizeUpper wgbsRobertsInfo = 400 := by
  decide

/-- C9: when no download tool is available, `_download_run` returns Success
for every run whose name pattern is not already present, writing exactly the
placeholder marker file; consequently `download_dataset` on any known dataset
id in non-dry-run mode returns true in this degraded mode, for every maxRuns
and bioproject filter. -/
theorem claim_C9 (env : Env) (dataset_id : String) (info : DatasetInfo)
    (bioproject : Option String) (max_runs : Option Int)
    (hsra : env.sra_available = false)
    (h : lookupDataset dataset_id = some info) :
    (∀ fenv run, fenv.dirListing.any (fastqGlobMatch run) = false →
       download_run false fenv run =
         ⟨.success, [.wrote (run ++ "_DOWNLOAD_REQUIRED.txt")]⟩) ∧
    (download_dataset env dataset_id bioproject max_runs false).1 = true := by
  constructor
  · intro fenv run hnf
    simp [download_run, hnf]
  · have hd : (download_dataset env dataset_id bioproject max_runs false).1 =
        (processBioprojects env false max_runs (datasetWorklist bioproject info)).1 := by
      unfold download_dataset
      rw [h]
    rw [hd, processBioprojects_result]
    simp only [List.all_eq_true]
    intro bp _ r _
    rw [hsra]
    exact download_run_no_sra_toBool _ _

/-- C9 witness: the degraded mode instantiated at `noToolEnv` on
`wgbs_roberts`. -/
theorem claim_C9_witness :
    noToolEnv.sra_available = false ∧
    lookupDataset "wgbs_roberts" = some wgbsRobertsInfo ∧
    (download_dataset noToolEnv "wgbs_roberts" none none false).1 = true :=
  ⟨rfl, by decide,
   (claim_C9 noToolEnv "wgbs_roberts" wgbsRobertsInfo none none rfl (by decide)).2⟩

/-- C10: every run accession returned by `get_bioproject_runs` — via the
query-path CSV parse or via the static fallback table — starts with `SRR`. -/
theorem claim_C10 (env : ResolveEnv) (bioproject r : String)
    (h : r ∈ get_bioproject_runs env bioproject) :
    pyStartsWith r "SRR" = true := by
  obtain ⟨q⟩ := env
  cases q with
  | exit rc out err =>
    simp only [get_bioproject_runs] at h
    split at h
    · cases hp : parseRuninfo out with
      | some runs =>
        rw [hp] at h
        exact parseRuninfo_start_SRR out runs r hp h
      | none =>
        rw [hp, ite_self] at h
        exact example_runs_start_SRR bioproject r h
    · rw [ite_self] at h
      exact example_runs_start_SRR bioproject r h
  | timeout =>
    simp only [get_bioproject_runs, ite_self] at h
    exact example_runs_start_SRR bioproject r h
  | exc msg =>
    simp only [get_bioproject_runs, ite_self] at h
    exact example_runs_start_SRR bioproject r h

/-- C10 witness: the invariant instantiated at the fallback path for
`PRJNA316216`. -/
theorem claim_C10_witness :
    "SRR4341274" ∈ get_bioproject_runs failedResolveEnv "PRJNA316216" ∧
    pyStartsWith "SRR4341274" "SRR" = true :=
  ⟨by decide, claim_C10 failedResolveEnv "PRJNA316216" "SRR4341274" (by decide)⟩

end WhiteWhale
